import Mathlib

/-!
Shallow embedding of `api/index.py` (Helios route-risk backend).

Modelling conventions:
* Python `int` is `ℤ`, Python `float` arithmetic in the normalizer is `ℚ`
  (all quantities involved are exact decimals, so no rounding is modelled).
* A JSON coordinate value (the value stored under a step's
  `start_location` key) is `CoordVal`: either JSON `null` (Python `None`)
  or an object of which only the `lat` / `lon` fields matter — those are
  the only keys the code reads; an object is truthy whenever it has at
  least one of them, and the guards below only pass when both are
  present, so tracking just these two fields is faithful.
* The geodesic distance of the external `geopy` library is a parameter
  `DistFun`; `none` models `geodesic` raising `ValueError`.
* Python exceptions escaping a function are `Except.error` with the
  exception name as the message.
* `float(str)` parsing of a query parameter is abstracted by giving each
  present parameter its parse outcome directly (`Option ℚ`, `none` =
  `ValueError` from `float`).
* Python `list(set(reasons))` returns the distinct reasons in an
  unspecified order; it is determinized as `List.dedup` (membership and
  emptiness agree with every possible ordering).
* `.lower()` is mapped over characters with `Char.toLower`; it agrees
  with Python on ASCII, which covers every keyword the scorer matches.
-/

/-- Helper asking whether the list `p` is an initial segment of `s`. -/
def startsWithL : List Char → List Char → Bool
  | [], _ => true
  | _ :: _, [] => false
  | a :: p, b :: s => a == b && startsWithL p s

/-- Helper for Python substring containment over the character list of a string. -/
def containsL : List Char → List Char → Bool
  | [], p => startsWithL p []
  | a :: s, p => startsWithL p (a :: s) || containsL s p

/-- Python `pat in s` (substring containment). -/
def strContains (s pat : String) : Bool :=
  containsL s.data pat.data

/-- Python `s.lower()` (agrees on ASCII). -/
def lowerStr (s : String) : String :=
  String.mk (s.data.map Char.toLower)

/-- A JSON value sitting under a `start_location` key: JSON `null`, or an
object of which only the `lat` and `lon` fields are observed by the code. -/
inductive CoordVal where
  | null : CoordVal
  | dict (lat : Option ℚ) (lon : Option ℚ) : CoordVal
deriving DecidableEq

/-- One maneuver step of a leg: `html_instructions` and `start_location`
are the only keys `calculate_risk_score` reads. `none` means the key is
absent from the step object. -/
structure Step where
  html_instructions : Option String
  start_location : Option CoordVal
deriving DecidableEq

/-- One leg of a route. `duration_in_traffic_value` models the chain
`leg.get("duration_in_traffic", \x7b\x7d).get("value", 0)` (`none` = the
chain falls back to the default `0`); `duration_text` / `distance_text`
model the corresponding `.get(..., "N/A")` chains. -/
structure Leg where
  duration_in_traffic_value : Option ℤ
  steps : List Step
  duration_text : Option String
  distance_text : Option String
deriving DecidableEq

/-- One route candidate of the provider response. -/
structure Route where
  legs : Option (List Leg)
  overview_polyline_points : Option String
  summary : Option String
deriving DecidableEq

/-- A named accident blackspot (a dict with `lat`, `lon`, `name`). -/
structure Bspot where
  lat : ℚ
  lon : ℚ
  name : String
deriving DecidableEq

/-- The hardcoded blackspot list of `calculate_risk_score`. -/
def ACCIDENT_BLACKSPOTS : List Bspot :=
  [ ⟨11.0180, 76.9691, "Gandhipuram Signal"⟩,
    ⟨10.9946, 76.9644, "Ukkadam"⟩,
    ⟨11.0268, 77.0357, "Avinashi Road - Hope College"⟩,
    ⟨11.0292, 76.9456, "Mettupalayam Road - Saibaba Colony"⟩,
    ⟨11.0028, 76.9947, "Trichy Road - Ramanathapuram"⟩,
    ⟨11.0705, 76.9981, "Saravanampatti Junction"⟩,
    ⟨10.9415, 76.9695, "Pollachi Road - Eachanari"⟩,
    ⟨10.9701, 76.9410, "Palakkad Road - Kuniyamuthur"⟩ ]

/-- The geodesic distance in meters between two (lat, lon) pairs, as
computed by the external geodesy library; `none` models the library
raising `ValueError`. -/
def DistFun : Type :=
  ℚ × ℚ → ℚ × ℚ → Option ℚ

/-- Source `is_within_radius(coord1, coord2, radius_meters)`.  The Python guard
builds the list `[coord1, coord2, "lat" in coord1, "lon" in coord1,
"lat" in coord2, "lon" in coord2]` eagerly, left to right, so a `None`
coordinate raises `TypeError` at its first membership test before `all`
ever runs; a dict coordinate passes the guard iff both fields are
present (a dict carrying both fields is nonempty, hence truthy).  A
distance failure (`ValueError`) is caught and yields `False`. -/
def is_within_radius (dist : DistFun) (coord1 coord2 : CoordVal)
    (radius_meters : ℚ) : Except String Bool :=
  match coord1 with
  | .null => .error "TypeError"
  | .dict lat1 lon1 =>
    match coord2 with
    | .null => .error "TypeError"
    | .dict lat2 lon2 =>
      match lat1, lon1, lat2, lon2 with
      | some a, some b, some c, some d =>
        match dist (a, b) (c, d) with
        | none => .ok false
        | some m => .ok (decide (m ≤ radius_meters))
      | _, _, _, _ => .ok false

/-- The list `hazard_keywords` of the source. -/
def hazard_keywords : List String :=
  ["sharp", "roundabout", "merge", "u-turn"]

/-- The lower-cased instruction text of a step
(`step.get("html_instructions", "").lower()`). -/
def stepInstr (step : Step) : String :=
  lowerStr (step.html_instructions.getD "")

/-- The step matches the `"sharp" in instruction` test. -/
def isSharp (step : Step) : Bool :=
  strContains (stepInstr step) "sharp"

/-- The step is counted as an other hazardous maneuver: it did not match
`"sharp"` and some keyword of `hazard_keywords` occurs in it. -/
def isOtherHaz (step : Step) : Bool :=
  !isSharp step && hazard_keywords.any (fun k => strContains (stepInstr step) k)

/-- Value of `is_hazardous_this_step` at the end of one loop iteration. -/
def isHazard (step : Step) : Bool :=
  isSharp step || isOtherHaz step

/-- The value appended to `hazard_coordinates`:
`step.get("start_location")`, i.e. `None` when the key is absent. -/
def hazEntry (step : Step) : CoordVal :=
  step.start_location.getD CoordVal.null

/-- The value bound to `step_location` in the blackspot loop:
`step.get("start_location", \x7b\x7d)`. -/
def stepLoc (step : Step) : CoordVal :=
  step.start_location.getD (CoordVal.dict none none)

/-- Mutable state of the per-step hazard scan of `calculate_risk_score`:
`base_score`, `sharp_turns_count`, `other_hazardous_maneuvers_count`,
`hazard_coordinates`. -/
structure HazState where
  score : ℤ
  cs : ℕ
  co : ℕ
  coords : List CoordVal
deriving DecidableEq

/-- One iteration of the `for step in steps` hazard loop. -/
def hazStep (st : HazState) (step : Step) : HazState :=
  let h1 := isSharp step
  let st1 := if h1 then { st with cs := st.cs + 1 } else st
  let h2 := if !h1 then hazard_keywords.any (fun k => strContains (stepInstr step) k)
            else false
  let st2 := if h2 then { st1 with co := st1.co + 1 } else st1
  if h1 || h2 then
    { st2 with score := st2.score + 100, coords := st2.coords ++ [hazEntry step] }
  else st2

/-- The whole hazard loop. -/
def hazScan (steps : List Step) (st : HazState) : HazState :=
  steps.foldl hazStep st

/-- Mutable state of the blackspot loop: `base_score`,
`blackspot_intersections_count`, `reasons`, `passed_blackspot_names`
(the set is kept as the list of names in insertion order). -/
structure BsState where
  score : ℤ
  count : ℕ
  reasons : List String
  passed : List String
deriving DecidableEq

/-- The reason string recorded for a matched blackspot. -/
def bsReason (name : String) : String :=
  "Passes near known accident blackspot: " ++ name

/-- The inner `for blackspot in ACCIDENT_BLACKSPOTS` loop for one step. -/
def bsInner (dist : DistFun) (loc : CoordVal) :
    List Bspot → BsState → Except String BsState
  | [], st => .ok st
  | b :: bs, st =>
    if b.name ∈ st.passed then bsInner dist loc bs st
    else
      match is_within_radius dist loc (CoordVal.dict (some b.lat) (some b.lon)) 250 with
      | .error e => .error e
      | .ok true =>
        bsInner dist loc bs
          { score := st.score + 200, count := st.count + 1,
            reasons := st.reasons ++ [bsReason b.name],
            passed := st.passed ++ [b.name] }
      | .ok false => bsInner dist loc bs st

/-- The outer `for step in steps` blackspot loop. -/
def bsOuter (dist : DistFun) : List Step → BsState → Except String BsState
  | [], st => .ok st
  | step :: rest, st =>
    match bsInner dist (stepLoc step) ACCIDENT_BLACKSPOTS st with
    | .error e => .error e
    | .ok st' => bsOuter dist rest st'

/-- Source `route.get("legs", [\x7b\x7d])[0]`: the default empty leg when the
key is absent, `IndexError` when the key holds an empty list. -/
def leg0E (route : Route) : Except String Leg :=
  match route.legs with
  | none => .ok ⟨none, [], none, none⟩
  | some [] => .error "IndexError"
  | some (l :: _) => .ok l

/-- The traffic reason string. -/
def trafficReason (minutes : ℤ) : String :=
  "Potential traffic delay: " ++ toString minutes ++ " minutes"

/-- The sharp-turn reason string. -/
def sharpReason (n : ℕ) : String :=
  "Route includes " ++ toString n ++ " sharp turn(s)"

/-- The other-maneuver reason string. -/
def otherReason (n : ℕ) : String :=
  "Route includes " ++ toString n ++
    " other potentially hazardous maneuver(s) (e.g., roundabouts, merges)"

/-- The extended-traffic fallback reason string. -/
def extTrafficReason : String :=
  "Route identified as higher risk potentially due to factors like extended traffic duration."

/-- The standard-route fallback reason string. -/
def stdReason : String :=
  "Standard route profile based on available data. Always drive safely."

/-- Value `duration_in_traffic_seconds` of the first leg. -/
def trafficSecs (leg : Leg) : ℤ :=
  leg.duration_in_traffic_value.getD 0

/-- The traffic contribution to `base_score`.  Division `secs / 60`
coincides with Python `//` because it is only evaluated under
`secs > 0`. -/
def trafficScore (leg : Leg) : ℤ :=
  if trafficSecs leg > 0 then trafficSecs leg / 60 else 0

/-- The reasons accumulated by the traffic block (lines 32-35). -/
def trafficReasons (leg : Leg) : List String :=
  if trafficSecs leg > 0 then [trafficReason (trafficSecs leg / 60)] else []

/-- The hazard-scan state after the per-step loop (lines 44-59), started
from the traffic score and empty counters. -/
def hazOf (leg : Leg) : HazState :=
  hazScan leg.steps ⟨trafficScore leg, 0, 0, []⟩

/-- The `reasons` list just before the blackspot loop (traffic reason
plus the post-scan count reasons of lines 61-64). -/
def reasonsPreBs (leg : Leg) : List String :=
  trafficReasons leg
    ++ (if (hazOf leg).cs > 0 then [sharpReason (hazOf leg).cs] else [])
    ++ (if (hazOf leg).co > 0 then [otherReason (hazOf leg).co] else [])

/-- The fallback-reason block (lines 101-104). -/
def finalReasons (leg : Leg) (bs : BsState) : List String :=
  if bs.score > 700 ∧ (hazOf leg).cs = 0 ∧ bs.count = 0 ∧ (hazOf leg).co = 0 then
    bs.reasons ++ [extTrafficReason]
  else if bs.score = 0 ∧ bs.reasons = [] then
    bs.reasons ++ [stdReason]
  else bs.reasons

/-- The body of `calculate_risk_score` applied to the first leg (lines
28-106 of the source after `legs[0]` has been read). -/
def calcBody (dist : DistFun) (leg : Leg) :
    Except String (ℤ × List CoordVal × List String) :=
  match bsOuter dist leg.steps ⟨(hazOf leg).score, 0, reasonsPreBs leg, []⟩ with
  | .error e => .error e
  | .ok bs => .ok (bs.score, (hazOf leg).coords, (finalReasons leg bs).dedup)

/-- Source `calculate_risk_score(route)`: returns
`(base_score, hazard_coordinates, list(set(reasons)))`, or the escaping
exception. -/
def calculate_risk_score (dist : DistFun) (route : Route) :
    Except String (ℤ × List CoordVal × List String) :=
  match leg0E route with
  | .error e => .error e
  | .ok leg => calcBody dist leg

/-- A client-facing scored route (the dict pushed to `processed_routes`,
after `raw_risk_for_sorting` is deleted and `risk_score` added). -/
structure ScoredRoute where
  polyline : Option String
  risk_score : ℚ
  hazards_coordinates : List CoordVal
  reasons : List String
  summary : String
  duration_text : String
  distance_text : String
deriving DecidableEq

/-- A processed route before normalization (still carrying
`raw_risk_for_sorting`). -/
structure PRoute where
  polyline : Option String
  raw : ℤ
  hazards : List CoordVal
  reasons : List String
  summary : String
  duration_text : String
  distance_text : String
deriving DecidableEq

/-- A response body: either the error shape
`jsonify(error=..., status=...)` or the success shape
`jsonify(status="OK", routes=...)`. -/
inductive Body where
  | err (error : String) (status : String) : Body
  | success (routes : List ScoredRoute) : Body
deriving DecidableEq

/-- An HTTP response: status code plus JSON body. -/
structure HttpResp where
  code : ℕ
  body : Body
deriving DecidableEq

/-- The four required query parameters, in source order. -/
def requiredParams : List String :=
  ["originLat", "originLng", "destinationLat", "destinationLng"]

/-- Query arguments: each present parameter name maps to the outcome of
`float(value)` on its string value (`none` = `ValueError`). -/
def Args : Type :=
  List (String × Option ℚ)

/-- Python `request.args.get(p)` presence and value lookup. -/
def lookupArg (args : Args) (p : String) : Option (Option ℚ) :=
  (args.find? (fun kv => kv.1 == p)).map (fun kv => kv.2)

/-- The `missing_params` list comprehension. -/
def missingParams (args : Args) : List String :=
  requiredParams.filter (fun p => (lookupArg args p).isNone)

/-- Python `", ".join`. -/
def joinComma : List String → String
  | [] => ""
  | [x] => x
  | x :: y :: xs => x ++ ", " ++ joinComma (y :: xs)

/-- The `PARAMS_ERROR` response for a given missing-parameter list. -/
def paramsErrorResp (missing : List String) : HttpResp :=
  ⟨400, .err ("Missing required parameters: " ++ joinComma missing) "PARAMS_ERROR"⟩

/-- The `VALUE_ERROR` response. -/
def valueErrorResp : HttpResp :=
  ⟨400, .err "Coordinate values must be valid numbers." "VALUE_ERROR"⟩

/-- The `PARAMS_UNKNOWN_ERROR` response (the generic `except Exception`
branch of parameter parsing; in particular `float(None)` raising
`TypeError` would land here). -/
def paramsUnknownResp : HttpResp :=
  ⟨400, .err "Invalid request parameters." "PARAMS_UNKNOWN_ERROR"⟩

/-- Python `float(request.args.get(p))` for one parameter. -/
def parseArg (args : Args) (p : String) : Except HttpResp ℚ :=
  match lookupArg args p with
  | some (some q) => .ok q
  | some none => .error valueErrorResp
  | none => .error paramsUnknownResp

/-- The parameter-validation prefix of `get_route` (lines 124-139). -/
def validateParams (args : Args) : Except HttpResp (ℚ × ℚ × ℚ × ℚ) :=
  if missingParams args ≠ [] then .error (paramsErrorResp (missingParams args))
  else
    match parseArg args "originLat" with
    | .error e => .error e
    | .ok a =>
      match parseArg args "originLng" with
      | .error e => .error e
      | .ok b =>
        match parseArg args "destinationLat" with
        | .error e => .error e
        | .ok c =>
          match parseArg args "destinationLng" with
          | .error e => .error e
          | .ok d => .ok (a, b, c, d)

/-- The decoded JSON body of a 2xx provider response: the `status`,
`error_message` and `routes` keys (each `none` when absent). -/
structure GData where
  status : Option String
  error_message : Option String
  routes : Option (List Route)
deriving DecidableEq

/-- The error message used for a non-OK provider status:
`data.get("error_message", f"Error from Google Directions API: ...")`,
where an absent status renders as Python's `None`. -/
def googleErrMsg (data : GData) : String :=
  data.error_message.getD
    ("Error from Google Directions API: " ++ data.status.getD "None")

/-- The status echoed for a non-OK provider response:
`google_api_status or "GOOGLE_API_ERROR"` (Python `or`: `None` and the
empty string are falsy). -/
def googleStatusField (st : Option String) : String :=
  match st with
  | none => "GOOGLE_API_ERROR"
  | some s => if s = "" then "GOOGLE_API_ERROR" else s

/-- Building one entry of `processed_routes` (lines 166-176): the risk
scorer runs first, then the first leg is read again for the
duration/distance texts. -/
def processRoute (dist : DistFun) (route : Route) : Except String PRoute :=
  match calculate_risk_score dist route with
  | .error e => .error e
  | .ok (raw, hazards, reasons) =>
    match leg0E route with
    | .error e => .error e
    | .ok leg =>
      .ok
        { polyline := route.overview_polyline_points,
          raw := raw,
          hazards := hazards,
          reasons := reasons,
          summary := route.summary.getD "N/A",
          duration_text := leg.duration_text.getD "N/A",
          distance_text := leg.distance_text.getD "N/A" }

/-- Python `min` over a nonempty list (the `[]` case is never reached by
the caller, which guards on emptiness first). -/
def listMin : List ℤ → ℤ
  | [] => 0
  | x :: xs => xs.foldl min x

/-- Python `max` over a nonempty list. -/
def listMax : List ℤ → ℤ
  | [] => 0
  | x :: xs => xs.foldl max x

/-- Lines 186-194: normalize one raw score against the response's
min/max and clamp into `[0.05, 1.0]`.  Both `normalized_score = 0.0`
branches of the source (single-value spread and the dead `else`) are
the common `else 0` here. -/
def finalScore (lo hi r : ℤ) : ℚ :=
  max 0.05 (min 1
    (0.05 + (if hi > lo then ((r : ℚ) - (lo : ℚ)) / ((hi : ℚ) - (lo : ℚ)) else 0) * 0.95))

/-- Attaching the normalized `risk_score` and dropping the raw score. -/
def toScored (lo hi : ℤ) (pr : PRoute) : ScoredRoute :=
  { polyline := pr.polyline,
    risk_score := finalScore lo hi pr.raw,
    hazards_coordinates := pr.hazards,
    reasons := pr.reasons,
    summary := pr.summary,
    duration_text := pr.duration_text,
    distance_text := pr.distance_text }

/-- The normalization and assembly applied to a nonempty processed list. -/
def assembleRoutes (prs : List PRoute) : List ScoredRoute :=
  let lo := listMin (prs.map PRoute.raw)
  let hi := listMax (prs.map PRoute.raw)
  prs.map (toScored lo hi)

/-- Lines 155-201 of `get_route`: everything after a successful 2xx
provider exchange.  A route whose processing raises is the uncaught
exception of the route loop, landing in the generic
`except Exception` handler (`UNKNOWN_SERVER_ERROR`). -/
def handleData (dist : DistFun) (data : GData) : HttpResp :=
  if data.status = some "OK" then
    match data.routes.getD [] with
    | [] => ⟨404, .err "No routes found between the specified locations." "NO_ROUTES_FOUND_GOOGLE"⟩
    | r :: rs =>
      match (r :: rs).mapM (processRoute dist) with
      | .error _ => ⟨500, .err "An unexpected server error occurred." "UNKNOWN_SERVER_ERROR"⟩
      | .ok prs =>
        if prs = [] then
          ⟨500, .err "No routes could be processed from Google's response." "ROUTE_PROCESSING_ERROR"⟩
        else ⟨200, .success (assembleRoutes prs)⟩
  else ⟨500, .err (googleErrMsg data) (googleStatusField data.status)⟩

/-- Source `get_route` for a request that reaches the provider and gets a 2xx
JSON body back: API-key guard, parameter validation, then provider-data
handling.  (The network/HTTP-error branches of the source touch no
claim and are not modelled.) -/
def get_route (dist : DistFun) (keyConfigured : Bool) (args : Args)
    (data : GData) : HttpResp :=
  if !keyConfigured then
    ⟨500, .err "Server configuration error: API key missing." "SERVER_CONFIG_ERROR"⟩
  else
    match validateParams args with
    | .error e => e
    | .ok _ => handleData dist data

/-- The concatenation of all legs' step lists of a route, in travel
order — the step collection the specification says the hazard scan
visits. -/
def allSteps (route : Route) : List Step :=
  ((route.legs.getD []).map Leg.steps).flatten

/-- Modelled from the spec: "every entry is a Coordinate, i.e. a value
carrying latitude and longitude fields" — the predicate a
`hazards_coordinates` entry is claimed to satisfy. -/
def carriesLatLon : CoordVal → Bool
  | .dict (some _) (some _) => true
  | _ => false

/-- A distance oracle under which every pair of coordinates is far
apart (no blackspot ever matches). -/
def distFar : DistFun :=
  fun _ _ => some 1000000

/-- A distance oracle under which every pair of coordinates coincides
(every blackspot is within every radius). -/
def distZero : DistFun :=
  fun _ _ => some 0

/-- A step whose instruction mentions a sharp turn, with a well-formed
start coordinate. -/
def sharpStep : Step :=
  ⟨some "Turn <b>sharp left</b>", some (.dict (some 11) (some 76.9))⟩

/-- A step whose instruction mentions a sharp turn but whose object has
no `start_location` key. -/
def sharpStepNoLoc : Step :=
  ⟨some "Sharp left turn", none⟩

/-- A plain step with a well-formed start coordinate. -/
def plainStepA : Step :=
  ⟨some "Head north", some (.dict (some 11.0180) (some 76.9691))⟩

/-- A second plain step with a well-formed start coordinate. -/
def plainStepB : Step :=
  ⟨some "Continue straight", some (.dict (some 11.0181) (some 76.9692))⟩

/-- A leg with no steps and no traffic data. -/
def legEmpty : Leg :=
  ⟨none, [], none, none⟩

/-- A leg whose only step is a sharp turn. -/
def legSharp : Leg :=
  ⟨none, [sharpStep], none, none⟩

/-- A route whose first leg is hazard-free and whose second leg holds a
sharp-turn step. -/
def routeTwoLegs : Route :=
  ⟨some [legEmpty, legSharp], none, none⟩

/-- A route whose single leg holds one sharp-turn step lacking a
`start_location`. -/
def routeSharpNoLoc : Route :=
  ⟨some [⟨none, [sharpStepNoLoc], none, none⟩], none, none⟩

/-- A route object with no `legs` key at all. -/
def routeBare : Route :=
  ⟨none, none, none⟩

/-- A route with 600 seconds of traffic-adjusted duration and no steps. -/
def routeTraffic : Route :=
  ⟨some [⟨some 600, [], none, none⟩], none, none⟩

/-- A provider body: status OK with one bare route. -/
def dataOkOne : GData :=
  ⟨some "OK", none, some [routeBare]⟩

/-- A provider body with a non-OK status and an error message. -/
def dataZeroResults : GData :=
  ⟨some "ZERO_RESULTS", some "No route could be found between the origin and destination.", none⟩

/-- A provider body whose `status` field is the empty string. -/
def dataEmptyStatus : GData :=
  ⟨some "", none, none⟩

/-- A complete, well-formed argument set. -/
def argsOk : Args :=
  [("originLat", some 11), ("originLng", some 76.9),
   ("destinationLat", some 11.05), ("destinationLng", some 77)]

/-- An argument set missing both destination parameters. -/
def argsMissing : Args :=
  [("originLat", some 11), ("originLng", some 76.9)]

/-- An argument set whose `destinationLng` does not parse as a number. -/
def argsBadValue : Args :=
  [("originLat", some 11), ("originLng", some 76.9),
   ("destinationLat", some 11.05), ("destinationLng", none)]

/-- A step whose instruction mentions a u-turn. -/
def uturnStep : Step :=
  ⟨some "Make a U-turn at the junction", some (.dict (some 1) (some 2))⟩

/-- The blackspot-loop state produced when every blackspot is within
radius of both of two scanned steps. -/
def bsAllMatched : BsState :=
  ⟨1600, 8, (ACCIDENT_BLACKSPOTS.map Bspot.name).map bsReason,
   ACCIDENT_BLACKSPOTS.map Bspot.name⟩

/-- The scored route produced for `routeBare` in a one-route response. -/
def srStd : ScoredRoute :=
  ⟨none, 0.05, [], [stdReason], "N/A", "N/A", "N/A"⟩

/-- Count `sharp_turns_count` over a step list. -/
def sharpCount (steps : List Step) : ℕ :=
  steps.countP (fun s => isSharp s)

/-- Count `other_hazardous_maneuvers_count` over a step list. -/
def otherCount (steps : List Step) : ℕ :=
  steps.countP (fun s => isOtherHaz s)

/-- The number of hazardous steps of a step list. -/
def hazCount (steps : List Step) : ℕ :=
  steps.countP (fun s => isHazard s)

/-- The `hazard_coordinates` produced by a step list: one verbatim
`start_location` per hazardous step, in step order. -/
def hazCoords (steps : List Step) : List CoordVal :=
  (steps.filter (fun s => isHazard s)).map hazEntry

theorem hazStep_spec (st : HazState) (step : Step) :
    hazStep st step =
      ⟨st.score + (if isHazard step then 100 else 0),
       st.cs + (if isSharp step then 1 else 0),
       st.co + (if isOtherHaz step then 1 else 0),
       st.coords ++ (if isHazard step then [hazEntry step] else [])⟩ := by
  cases h1 : isSharp step with
  | true => simp [hazStep, isHazard, isOtherHaz, h1]
  | false =>
    cases h2 : hazard_keywords.any (fun k => strContains (stepInstr step) k) with
    | true => simp [hazStep, isHazard, isOtherHaz, h1, h2]
    | false => simp [hazStep, isHazard, isOtherHaz, h1, h2]

theorem hazScan_spec (steps : List Step) (st : HazState) :
    hazScan steps st =
      ⟨st.score + 100 * (hazCount steps : ℤ),
       st.cs + sharpCount steps,
       st.co + otherCount steps,
       st.coords ++ hazCoords steps⟩ := by
  induction steps generalizing st with
  | nil => simp [hazScan, hazCount, sharpCount, otherCount, hazCoords]
  | cons s ss ih =>
    have hstep : hazScan (s :: ss) st = hazScan ss (hazStep st s) := rfl
    rw [hstep, ih, hazStep_spec]
    simp only [hazCount, sharpCount, otherCount, hazCoords,
      List.countP_cons, List.filter_cons]
    simp only [HazState.mk.injEq]
    refine ⟨?_, ?_, ?_, ?_⟩ <;> split_ifs <;>
      first
        | (push_cast; ring1)
        | omega
        | simp only [List.append_assoc, List.singleton_append, List.map_cons,
            List.append_nil]

theorem nodupSnoc {l : List String} {a : String} (h : l.Nodup) (ha : a ∉ l) :
    (l ++ [a]).Nodup := by
  simp [List.nodup_append, h, ha]

theorem bsInner_ok (dist : DistFun) (loc : CoordVal) :
    ∀ (bl : List Bspot) (st st' : BsState),
      bsInner dist loc bl st = .ok st' → st.passed.Nodup →
      ∃ new : List String,
        st'.passed = st.passed ++ new ∧
        st'.passed.Nodup ∧
        st'.score = st.score + 200 * (new.length : ℤ) ∧
        st'.count = st.count + new.length ∧
        st'.reasons = st.reasons ++ new.map bsReason ∧
        ∀ n ∈ new, n ∈ bl.map Bspot.name := by
  intro bl
  induction bl with
  | nil =>
    intro st st' h hnd
    simp only [bsInner] at h
    obtain rfl : st = st' := by injection h
    exact ⟨[], by simp, by simpa using hnd, by simp, by simp, by simp, by simp⟩
  | cons b bs ih =>
    intro st st' h hnd
    simp only [bsInner] at h
    by_cases hmem : b.name ∈ st.passed
    · rw [if_pos hmem] at h
      obtain ⟨new, h1, h2, h3, h4, h5, h6⟩ := ih st st' h hnd
      exact ⟨new, h1, h2, h3, h4, h5,
        fun n hn => List.mem_cons_of_mem _ (h6 n hn)⟩
    · rw [if_neg hmem] at h
      cases hw : is_within_radius dist loc (CoordVal.dict (some b.lat) (some b.lon)) 250 with
      | error e =>
        rw [hw] at h
        exact Except.noConfusion h
      | ok tv =>
        cases tv with
        | false =>
          simp only [hw] at h
          obtain ⟨new, h1, h2, h3, h4, h5, h6⟩ := ih st st' h hnd
          exact ⟨new, h1, h2, h3, h4, h5,
            fun n hn => List.mem_cons_of_mem _ (h6 n hn)⟩
        | true =>
          simp only [hw] at h
          have hnd2 : (st.passed ++ [b.name]).Nodup := nodupSnoc hnd hmem
          obtain ⟨new2, h1, h2, h3, h4, h5, h6⟩ := ih _ st' h hnd2
          refine ⟨b.name :: new2, ?_, h2, ?_, ?_, ?_, ?_⟩
          · rw [h1]; simp
          · rw [h3]; simp only [List.length_cons]; push_cast; ring
          · rw [h4]; simp; omega
          · rw [h5]; simp
          · intro n hn
            rcases List.mem_cons.mp hn with rfl | hn2
            · exact List.mem_cons_self _ _
            · exact List.mem_cons_of_mem _ (h6 n hn2)

theorem bsOuter_ok (dist : DistFun) :
    ∀ (steps : List Step) (st st' : BsState),
      bsOuter dist steps st = .ok st' → st.passed.Nodup →
      ∃ new : List String,
        st'.passed = st.passed ++ new ∧
        st'.passed.Nodup ∧
        st'.score = st.score + 200 * (new.length : ℤ) ∧
        st'.count = st.count + new.length ∧
        st'.reasons = st.reasons ++ new.map bsReason ∧
        ∀ n ∈ new, n ∈ ACCIDENT_BLACKSPOTS.map Bspot.name := by
  intro steps
  induction steps with
  | nil =>
    intro st st' h hnd
    simp only [bsOuter] at h
    obtain rfl : st = st' := by injection h
    exact ⟨[], by simp, by simpa using hnd, by simp, by simp, by simp, by simp⟩
  | cons step rest ih =>
    intro st st' h hnd
    simp only [bsOuter] at h
    cases hw : bsInner dist (stepLoc step) ACCIDENT_BLACKSPOTS st with
    | error e =>
      rw [hw] at h
      exact Except.noConfusion h
    | ok st1 =>
      simp only [hw] at h
      obtain ⟨new1, a1, a2, a3, a4, a5, a6⟩ :=
        bsInner_ok dist (stepLoc step) ACCIDENT_BLACKSPOTS st st1 hw hnd
      obtain ⟨new2, b1, b2, b3, b4, b5, b6⟩ := ih st1 st' h (a1 ▸ a2)
      refine ⟨new1 ++ new2, ?_, b2, ?_, ?_, ?_, ?_⟩
      · rw [b1, a1, List.append_assoc]
      · rw [b3, a3]; simp only [List.length_append]; push_cast; ring
      · rw [b4, a4]; simp; omega
      · rw [b5, a5]; simp
      · intro n hn
        rcases List.mem_append.mp hn with hn1 | hn2
        · exact a6 n hn1
        · exact b6 n hn2

/-- C3: in every route's blackspot pass, the matched-blackspot names are
pairwise distinct, the score gained over the starting score is exactly
200 per matched blackspot, the intersection count equals the number of
matched blackspots, and exactly one naming reason is appended per
matched blackspot — so a blackspot is credited at most once per route
even when several steps lie within 250 m of it. -/
theorem blackspot_credited_once (dist : DistFun) (steps : List Step)
    (s0 : ℤ) (r0 : List String) (st' : BsState)
    (h : bsOuter dist steps ⟨s0, 0, r0, []⟩ = .ok st') :
    st'.passed.Nodup ∧
    st'.score = s0 + 200 * (st'.passed.length : ℤ) ∧
    st'.count = st'.passed.length ∧
    st'.reasons = r0 ++ st'.passed.map bsReason ∧
    ∀ n ∈ st'.passed, n ∈ ACCIDENT_BLACKSPOTS.map Bspot.name := by
  obtain ⟨new, h1, h2, h3, h4, h5, h6⟩ := bsOuter_ok dist steps _ st' h (by simp)
  have hp : st'.passed = new := by simpa using h1
  refine ⟨h2, ?_, ?_, ?_, ?_⟩
  · rw [hp]; simpa using h3
  · rw [hp]; simpa using h4
  · rw [hp]; simpa using h5
  · intro n hn
    exact h6 n (hp ▸ hn)

/-- Witness for C3: with a distance oracle putting both scanned steps
within every blackspot's radius, each of the eight blackspots is
credited exactly once. -/
theorem blackspot_credited_once_inst :
    bsAllMatched.passed.Nodup ∧
    bsAllMatched.score = 0 + 200 * (bsAllMatched.passed.length : ℤ) ∧
    bsAllMatched.count = bsAllMatched.passed.length ∧
    bsAllMatched.reasons = [] ++ bsAllMatched.passed.map bsReason ∧
    ∀ n ∈ bsAllMatched.passed, n ∈ ACCIDENT_BLACKSPOTS.map Bspot.name :=
  blackspot_credited_once distZero [plainStepA, plainStepB] 0 [] bsAllMatched
    (by rfl)

/-- C4: per-step hazard classification is mutually exclusive — an
instruction containing "sharp" bumps the sharp counter and never the
other-maneuver counter; only an instruction without "sharp" is tested,
and then the other-maneuver counter bumps exactly when one of
"roundabout", "merge", "u-turn" occurs; a hazardous step adds exactly
100 to the score. -/
theorem hazard_classification_exclusive (step : Step) (st : HazState) :
    (isSharp step = true →
      (hazStep st step).cs = st.cs + 1 ∧ (hazStep st step).co = st.co) ∧
    (isSharp step = false →
      (hazStep st step).cs = st.cs ∧
      ((hazStep st step).co = st.co + 1 ↔
        (strContains (stepInstr step) "roundabout" = true ∨
         strContains (stepInstr step) "merge" = true ∨
         strContains (stepInstr step) "u-turn" = true))) ∧
    (hazStep st step).score = st.score + (if isHazard step then 100 else 0) := by
  refine ⟨?_, ?_, ?_⟩
  · intro h
    rw [hazStep_spec]
    simp [h, isOtherHaz]
  · intro h
    rw [hazStep_spec]
    have hs : strContains (stepInstr step) "sharp" = false := by
      simpa [isSharp] using h
    constructor
    · simp [h]
    · simp only [isOtherHaz, h, hazard_keywords, List.any_cons, List.any_nil, hs]
      by_cases hr : strContains (stepInstr step) "roundabout" = true <;>
        by_cases hm : strContains (stepInstr step) "merge" = true <;>
        by_cases hu : strContains (stepInstr step) "u-turn" = true <;>
        simp [hr, hm, hu]
  · rw [hazStep_spec]

/-- Witness for C4: a sharp-turn step is counted as sharp and not as an
other maneuver; a u-turn step's score gain is governed by its hazard
flag. -/
theorem hazard_classification_exclusive_inst :
    ((hazStep ⟨0, 0, 0, []⟩ sharpStep).cs = 0 + 1 ∧
     (hazStep ⟨0, 0, 0, []⟩ sharpStep).co = 0) ∧
    (hazStep ⟨0, 0, 0, []⟩ uturnStep).score =
      0 + (if isHazard uturnStep then 100 else 0) :=
  ⟨(hazard_classification_exclusive sharpStep ⟨0, 0, 0, []⟩).1 (by decide),
   (hazard_classification_exclusive uturnStep ⟨0, 0, 0, []⟩).2.2⟩

/-- C8 status: the within-radius check is NOT total.  Called with a
`None` first coordinate (a step whose `start_location` is JSON null) it
raises `TypeError` instead of returning `False`, because the guard list
is built eagerly; with a dict coordinate missing its fields it does
return `False` as the spec describes. -/
theorem null_coord_raises :
    is_within_radius distFar CoordVal.null
      (CoordVal.dict (some 11.0180) (some 76.9691)) 250 = .error "TypeError" ∧
    is_within_radius distFar (CoordVal.dict none none)
      (CoordVal.dict (some 11.0180) (some 76.9691)) 250 = .ok false :=
  ⟨rfl, rfl⟩

/-- C7: when a response's raw scores have `min < max`, every route's
final score is `clamp(0.05 + (r - lo)/(hi - lo) * 0.95, 0.05, 1.0)`,
the minimum-score route gets exactly 0.05 and the maximum-score route
gets exactly 1.0. -/
theorem normalization_endpoints (raws : List ℤ) (r : ℤ)
    (h : listMin raws < listMax raws) :
    finalScore (listMin raws) (listMax raws) r =
      max 0.05 (min 1 (0.05 +
        ((r : ℚ) - (listMin raws : ℚ)) /
          ((listMax raws : ℚ) - (listMin raws : ℚ)) * 0.95)) ∧
    finalScore (listMin raws) (listMax raws) (listMin raws) = 0.05 ∧
    finalScore (listMin raws) (listMax raws) (listMax raws) = 1 := by
  have hne : ((listMax raws : ℚ) - (listMin raws : ℚ)) ≠ 0 := by
    have : (listMin raws : ℚ) < (listMax raws : ℚ) := by exact_mod_cast h
    exact sub_ne_zero.mpr (ne_of_gt this)
  refine ⟨?_, ?_, ?_⟩
  · simp [finalScore, if_pos h]
  · simp only [finalScore, if_pos h, sub_self, zero_div, zero_mul, add_zero]
    rw [min_eq_right (by norm_num : (0.05 : ℚ) ≤ 1), max_self]
  · simp only [finalScore, if_pos h, div_self hne, one_mul]
    norm_num

/-- Witness for C7 at raw scores 0 and 100. -/
theorem normalization_endpoints_inst :
    finalScore (listMin [0, 100]) (listMax [0, 100]) (listMin [0, 100]) = 0.05 ∧
    finalScore (listMin [0, 100]) (listMax [0, 100]) (listMax [0, 100]) = 1 :=
  ⟨(normalization_endpoints [0, 100] 0 (by decide)).2.1,
   (normalization_endpoints [0, 100] 0 (by decide)).2.2⟩

/-- C6 counterexample: a provider response whose `status` field is the
empty string is not echoed unchanged — Python's `or` replaces the falsy
empty string with "GOOGLE_API_ERROR". -/
theorem empty_status_remapped :
    handleData distFar dataEmptyStatus =
      ⟨500, .err "Error from Google Directions API: " "GOOGLE_API_ERROR"⟩ ∧
    dataEmptyStatus.status = some "" ∧
    ("GOOGLE_API_ERROR" : String) ≠ "" :=
  ⟨rfl, rfl, by decide⟩

/-- C6 amended: for every provider response whose status is a non-empty
string other than "OK", the handler returns HTTP 500 with that status
echoed unchanged, and the provider's `error_message` is propagated
whenever it is present. -/
theorem provider_status_echoed (dist : DistFun) (data : GData) (s : String)
    (hs : data.status = some s) (hok : s ≠ "OK") (hne : s ≠ "") :
    handleData dist data = ⟨500, .err (googleErrMsg data) s⟩ ∧
    ∀ m, data.error_message = some m → googleErrMsg data = m := by
  constructor
  · rw [handleData, hs]
    rw [if_neg (by simpa using hok)]
    simp [googleStatusField, hne]
  · intro m hm
    simp [googleErrMsg, hm]

/-- Witness for C6 amended: a ZERO_RESULTS status is echoed and its
message propagated. -/
theorem provider_status_echoed_inst :
    handleData distFar dataZeroResults =
      ⟨500, .err (googleErrMsg dataZeroResults) "ZERO_RESULTS"⟩ ∧
    googleErrMsg dataZeroResults =
      "No route could be found between the origin and destination." := by
  have h := provider_status_echoed distFar dataZeroResults "ZERO_RESULTS"
    rfl (by decide) (by decide)
  exact ⟨h.1, h.2 _ rfl⟩

theorem hazCount_eq (steps : List Step) :
    hazCount steps = sharpCount steps + otherCount steps := by
  induction steps with
  | nil => rfl
  | cons s ss ih =>
    by_cases h1 : isSharp s = true
    · have h2 : isOtherHaz s = false := by simp [isOtherHaz, h1]
      have hh : isHazard s = true := by simp [isHazard, h1]
      simp [hazCount, sharpCount, otherCount, List.countP_cons, h1, h2, hh] at ih ⊢
      omega
    · have h1x : isSharp s = false := by simpa using h1
      by_cases h2 : isOtherHaz s = true
      · have hh : isHazard s = true := by simp [isHazard, h2]
        simp [hazCount, sharpCount, otherCount, List.countP_cons, h1x, h2, hh] at ih ⊢
        omega
      · have h2x : isOtherHaz s = false := by simpa using h2
        have hh : isHazard s = false := by simp [isHazard, h1x, h2x]
        simp [hazCount, sharpCount, otherCount, List.countP_cons, h1x, h2x, hh] at ih ⊢
        omega

theorem calc_ok_inv (dist : DistFun) (route : Route) (s : ℤ)
    (hz : List CoordVal) (rs : List String)
    (h : calculate_risk_score dist route = .ok (s, hz, rs)) :
    ∃ leg bs, leg0E route = .ok leg ∧
      bsOuter dist leg.steps ⟨(hazOf leg).score, 0, reasonsPreBs leg, []⟩ = .ok bs ∧
      s = bs.score ∧ hz = (hazOf leg).coords ∧
      rs = (finalReasons leg bs).dedup := by
  rw [calculate_risk_score] at h
  cases hl : leg0E route with
  | error e =>
    rw [hl] at h
    exact Except.noConfusion h
  | ok leg =>
    rw [hl] at h
    replace h : calcBody dist leg = Except.ok (s, hz, rs) := h
    rw [calcBody.eq_def] at h
    cases hb : bsOuter dist leg.steps ⟨(hazOf leg).score, 0, reasonsPreBs leg, []⟩ with
    | error e =>
      rw [hb] at h
      exact Except.noConfusion h
    | ok bs =>
      rw [hb] at h
      replace h : Except.ok (bs.score, (hazOf leg).coords, (finalReasons leg bs).dedup) =
          Except.ok (s, hz, rs) := h
      injection h with h
      simp only [Prod.mk.injEq] at h
      obtain ⟨h1, h2, h3⟩ := h
      exact ⟨leg, bs, rfl, hb, h1.symm, h2.symm, h3.symm⟩

/-- C1 counterexample: `routeTwoLegs` carries a hazardous (sharp-turn)
step in its second leg, yet the scorer returns score 0, no hazard
coordinates and only the standard-route fallback reason — the step
contributed nothing, so the scan does not visit every leg. -/
theorem second_leg_hazard_ignored :
    (∃ step ∈ allSteps routeTwoLegs, isHazard step = true) ∧
    calculate_risk_score distFar routeTwoLegs = .ok (0, [], [stdReason]) :=
  ⟨⟨sharpStep, by simp [allSteps, routeTwoLegs, legEmpty, legSharp], rfl⟩, rfl⟩

/-- C1 amended: the per-step hazard scan visits every step of the
route's FIRST leg, in order — the scorer's whole result is unchanged if
all later legs are dropped, and the hazard coordinates are exactly the
first leg's hazardous steps' start locations in step order. -/
theorem hazard_scan_first_leg_only (dist : DistFun) (route : Route)
    (l : Leg) (rest : List Leg) (hlegs : route.legs = some (l :: rest)) :
    calculate_risk_score dist route =
      calculate_risk_score dist { route with legs := some [l] } ∧
    ∀ s hz rs, calculate_risk_score dist route = .ok (s, hz, rs) →
      hz = hazCoords l.steps := by
  have hleg : leg0E route = .ok l := by rw [leg0E, hlegs]
  have hleg2 : leg0E { route with legs := some [l] } = .ok l := rfl
  constructor
  · rw [calculate_risk_score, calculate_risk_score, hleg, hleg2]
  · intro s hz rs h
    obtain ⟨leg, bs, hl, hb, hs, hhz, hrs⟩ := calc_ok_inv dist route s hz rs h
    rw [hl] at hleg
    injection hleg with he
    subst he
    rw [hhz]
    simp [hazOf, hazScan_spec, hazCoords]

/-- Witness for C1 amended at `routeTwoLegs`: dropping the second leg
leaves the result unchanged and the hazard list is the first leg's. -/
theorem hazard_scan_first_leg_only_inst :
    calculate_risk_score distFar routeTwoLegs =
      calculate_risk_score distFar { routeTwoLegs with legs := some [legEmpty] } ∧
    ([] : List CoordVal) = hazCoords legEmpty.steps := by
  have h := hazard_scan_first_leg_only distFar routeTwoLegs legEmpty [legSharp] rfl
  exact ⟨h.1, h.2 0 [] [stdReason] rfl⟩

/-- C9 counterexample: a hazardous step without a `start_location` key
contributes the entry `None` (JSON null) to `hazards_coordinates`,
which is not a Coordinate carrying latitude/longitude fields. -/
theorem hazard_entry_not_coordinate :
    calculate_risk_score distFar routeSharpNoLoc =
      .ok (100, [CoordVal.null], [sharpReason 1]) ∧
    carriesLatLon CoordVal.null = false :=
  ⟨rfl, rfl⟩

/-- C9 amended: `hazard_coordinates` holds one entry per hazardous step
among the steps the scorer scans (the first leg's), in step order with
duplicates preserved; each entry is the step's `start_location` value
verbatim — a Coordinate when present, null when absent. -/
theorem hazard_entries_verbatim (dist : DistFun) (route : Route) (l : Leg)
    (hleg : leg0E route = .ok l) (s : ℤ) (hz : List CoordVal)
    (rs : List String)
    (h : calculate_risk_score dist route = .ok (s, hz, rs)) :
    hz = (l.steps.filter (fun st => isHazard st)).map hazEntry ∧
    hz.length = hazCount l.steps := by
  obtain ⟨leg, bs, hl, hb, hs, hhz, hrs⟩ := calc_ok_inv dist route s hz rs h
  rw [hl] at hleg
  injection hleg with he
  subst he
  subst hhz
  constructor
  · simp [hazOf, hazScan_spec, hazCoords]
  · simp [hazOf, hazScan_spec, hazCoords, hazCount, List.countP_eq_length_filter]

/-- Witness for C9 amended at `routeSharpNoLoc`. -/
theorem hazard_entries_verbatim_inst :
    ([CoordVal.null] : List CoordVal) =
      ([sharpStepNoLoc].filter (fun st => isHazard st)).map hazEntry ∧
    ([CoordVal.null] : List CoordVal).length = hazCount [sharpStepNoLoc] :=
  hazard_entries_verbatim distFar routeSharpNoLoc
    ⟨none, [sharpStepNoLoc], none, none⟩ rfl 100 [CoordVal.null]
    [sharpReason 1] rfl

/-- C10: whenever the risk scorer returns, its reasons list is
non-empty; in particular any strictly positive traffic duration (even
one flooring to 0 minutes) puts the traffic reason in the list, and a
zero score with no other reason gets the standard-route fallback. -/
theorem reasons_nonempty (dist : DistFun) (route : Route) (s : ℤ)
    (hz : List CoordVal) (rs : List String)
    (h : calculate_risk_score dist route = .ok (s, hz, rs)) :
    rs ≠ [] ∧
    ∀ leg, leg0E route = .ok leg → 0 < trafficSecs leg →
      trafficReason (trafficSecs leg / 60) ∈ rs := by
  obtain ⟨leg, bs, hl, hb, hs, hhz, hrs⟩ := calc_ok_inv dist route s hz rs h
  subst hrs
  obtain ⟨new, b1, b2, b3, b4, b5, b6⟩ := bsOuter_ok dist leg.steps _ bs hb (by simp)
  have hbsreason : bs.reasons = reasonsPreBs leg ++ new.map bsReason := by
    simpa using b5
  have hbsscore : bs.score = (hazOf leg).score + 200 * (new.length : ℤ) := by
    simpa using b3
  have hhazscore : (hazOf leg).score =
      trafficScore leg + 100 * (hazCount leg.steps : ℤ) := by
    rw [hazOf, hazScan_spec]
  have hcs_eq : (hazOf leg).cs = sharpCount leg.steps := by
    rw [hazOf, hazScan_spec]; simp
  have hco_eq : (hazOf leg).co = otherCount leg.steps := by
    rw [hazOf, hazScan_spec]; simp
  constructor
  · simp only [Ne, List.dedup_eq_nil]
    rw [finalReasons]
    split_ifs with hf1 hf2
    · simp
    · simp
    · intro hemp
      apply hf2
      refine ⟨?_, hemp⟩
      rw [hbsreason] at hemp
      have hpre : reasonsPreBs leg = [] := (List.append_eq_nil.mp hemp).1
      have hnew : new = [] := by
        have h2 := (List.append_eq_nil.mp hemp).2
        simpa using h2
      rw [reasonsPreBs] at hpre
      have h3 := List.append_eq_nil.mp hpre
      have h4 := List.append_eq_nil.mp h3.1
      have hsecs : ¬ 0 < trafficSecs leg := by
        intro hpos
        have := h4.1
        simp [trafficReasons, hpos] at this
      have htscore : trafficScore leg = 0 := by
        rw [trafficScore, if_neg (by simpa using hsecs)]
      have hcs : (hazOf leg).cs = 0 := by
        by_contra hcs0
        have hgt : 0 < (hazOf leg).cs := Nat.pos_of_ne_zero hcs0
        have := h4.2
        simp [if_pos hgt] at this
      have hco : (hazOf leg).co = 0 := by
        by_contra hco0
        have hgt : 0 < (hazOf leg).co := Nat.pos_of_ne_zero hco0
        have := h3.2
        simp [if_pos hgt] at this
      have hcount : hazCount leg.steps = 0 := by
        rw [hazCount_eq]
        rw [hcs_eq] at hcs
        rw [hco_eq] at hco
        omega
      rw [hbsscore, hhazscore, htscore, hnew, hcount]
      simp
  · intro leg2 hleg2 hpos
    rw [hl] at hleg2
    injection hleg2 with he
    subst he
    rw [List.mem_dedup]
    have hmem : trafficReason (trafficSecs leg / 60) ∈ bs.reasons := by
      rw [hbsreason, reasonsPreBs, trafficReasons, if_pos (by simpa using hpos)]
      simp
    rw [finalReasons]
    split_ifs <;> simp [hmem]

/-- Witness for C10: a route with 600 s of traffic yields the single
traffic reason "Potential traffic delay: 10 minutes". -/
theorem reasons_nonempty_inst :
    ([trafficReason 10] : List String) ≠ [] ∧
    trafficReason 10 ∈ ([trafficReason 10] : List String) := by
  have h := reasons_nonempty distFar routeTraffic 10 [] [trafficReason 10] rfl
  refine ⟨h.1, ?_⟩
  have h2 := h.2 ⟨some 600, [], none, none⟩ rfl (by decide)
  exact h2

/-- C5: with the API key configured, a request missing required
parameters gets the 400 PARAMS_ERROR response whose message lists
exactly the missing names; a request with all four present but some
value failing to parse as a number gets the 400 VALUE_ERROR response. -/
theorem param_validation_errors (args : Args) :
    (missingParams args ≠ [] →
      validateParams args = .error (paramsErrorResp (missingParams args))) ∧
    (missingParams args = [] →
      (∃ p ∈ requiredParams, lookupArg args p = some none) →
      validateParams args = .error valueErrorResp) := by
  constructor
  · intro hm
    rw [validateParams, if_pos hm]
  · intro hm hex
    have hall : ∀ p ∈ requiredParams, ¬((lookupArg args p).isNone = true) := by
      rw [missingParams] at hm
      exact List.filter_eq_nil_iff.mp hm
    have h1 := hall "originLat" (by simp [requiredParams])
    have h2 := hall "originLng" (by simp [requiredParams])
    have h3 := hall "destinationLat" (by simp [requiredParams])
    have h4 := hall "destinationLng" (by simp [requiredParams])
    rw [validateParams, if_neg (by simp [hm])]
    rcases e1 : lookupArg args "originLat" with _ | v1
    · rw [e1] at h1; simp at h1
    rcases v1 with _ | q1
    · simp [parseArg, e1]
    rcases e2 : lookupArg args "originLng" with _ | v2
    · rw [e2] at h2; simp at h2
    rcases v2 with _ | q2
    · simp [parseArg, e1, e2]
    rcases e3 : lookupArg args "destinationLat" with _ | v3
    · rw [e3] at h3; simp at h3
    rcases v3 with _ | q3
    · simp [parseArg, e1, e2, e3]
    rcases e4 : lookupArg args "destinationLng" with _ | v4
    · rw [e4] at h4; simp at h4
    rcases v4 with _ | q4
    · simp [parseArg, e1, e2, e3, e4]
    · exfalso
      obtain ⟨p, hp, hv⟩ := hex
      simp only [requiredParams, List.mem_cons, List.not_mem_nil, or_false] at hp
      rcases hp with rfl | rfl | rfl | rfl
      · rw [e1] at hv; simp at hv
      · rw [e2] at hv; simp at hv
      · rw [e3] at hv; simp at hv
      · rw [e4] at hv; simp at hv

/-- Witness for C5: two destination parameters missing yields
PARAMS_ERROR naming exactly them; a present but non-numeric
`destinationLng` yields VALUE_ERROR. -/
theorem param_validation_errors_inst :
    validateParams argsMissing =
      .error (paramsErrorResp ["destinationLat", "destinationLng"]) ∧
    validateParams argsBadValue = .error valueErrorResp := by
  constructor
  · have hm : missingParams argsMissing = ["destinationLat", "destinationLng"] := by
      decide
    have h := (param_validation_errors argsMissing).1 (by rw [hm]; simp)
    rw [hm] at h
    exact h
  · exact (param_validation_errors argsBadValue).2 (by decide)
      ⟨"destinationLng", by simp [requiredParams], by decide⟩

theorem finalScore_bounds (lo hi r : ℤ) :
    (0.05 : ℚ) ≤ finalScore lo hi r ∧ finalScore lo hi r ≤ 1 := by
  constructor
  · exact le_max_left _ _
  · exact max_le (by norm_num) (min_le_left _ _)

theorem finalScore_const (lo hi r : ℤ) (h : ¬ lo < hi) :
    finalScore lo hi r = 0.05 := by
  simp only [finalScore, if_neg h, zero_mul, add_zero]
  rw [min_eq_right (by norm_num : (0.05 : ℚ) ≤ 1), max_self]

theorem validate_error_code (args : Args) (e : HttpResp)
    (h : validateParams args = .error e) : e.code = 400 := by
  have perr : ∀ p e', parseArg args p = .error e' → e'.code = 400 := by
    intro p e' hp
    rw [parseArg] at hp
    rcases hl : lookupArg args p with _ | v
    · rw [hl] at hp
      injection hp with hp
      rw [← hp]
      rfl
    rcases v with _ | q
    · rw [hl] at hp
      injection hp with hp
      rw [← hp]
      rfl
    · rw [hl] at hp
      exact Except.noConfusion hp
  rw [validateParams] at h
  by_cases hm : missingParams args ≠ []
  · rw [if_pos hm] at h
    injection h with h
    rw [← h]
    rfl
  · rw [if_neg hm] at h
    cases p1 : parseArg args "originLat" with
    | error e1 =>
      rw [p1] at h; injection h with h; rw [← h]; exact perr _ _ p1
    | ok a =>
      rw [p1] at h
      cases p2 : parseArg args "originLng" with
      | error e2 =>
        rw [p2] at h; injection h with h; rw [← h]; exact perr _ _ p2
      | ok b =>
        rw [p2] at h
        cases p3 : parseArg args "destinationLat" with
        | error e3 =>
          rw [p3] at h; injection h with h; rw [← h]; exact perr _ _ p3
        | ok c =>
          rw [p3] at h
          cases p4 : parseArg args "destinationLng" with
          | error e4 =>
            rw [p4] at h; injection h with h; rw [← h]; exact perr _ _ p4
          | ok d =>
            rw [p4] at h
            exact Except.noConfusion h

theorem assemble_scores (prs : List PRoute) (sr : ScoredRoute)
    (h : sr ∈ assembleRoutes prs) :
    ∃ pr ∈ prs,
      sr = toScored (listMin (prs.map PRoute.raw)) (listMax (prs.map PRoute.raw)) pr := by
  simp only [assembleRoutes, List.mem_map] at h
  obtain ⟨pr, hpr, hsr⟩ := h
  exact ⟨pr, hpr, hsr.symm⟩

/-- C2: every successful `/api/route` response carries at least one
route, every returned `risk_score` lies in [0.05, 1.0], and a
single-route response has `risk_score` exactly 0.05. -/
theorem risk_score_bounds (dist : DistFun) (key : Bool) (args : Args)
    (data : GData) (rs : List ScoredRoute)
    (h : get_route dist key args data = ⟨200, .success rs⟩) :
    rs ≠ [] ∧
    (∀ sr ∈ rs, (0.05 : ℚ) ≤ sr.risk_score ∧ sr.risk_score ≤ 1) ∧
    (rs.length = 1 → ∀ sr ∈ rs, sr.risk_score = 0.05) := by
  rw [get_route] at h
  cases key with
  | false => simp at h
  | true =>
    rw [show (!true) = false from rfl, if_neg (by simp)] at h
    split at h
    next e heq =>
      have hc := validate_error_code args e heq
      rw [h] at hc
      simp at hc
    next v heq =>
      rw [handleData] at h
      by_cases hok : data.status = some "OK"
      case neg =>
        rw [if_neg hok] at h
        simp at h
      rw [if_pos hok] at h
      split at h
      next heq2 =>
        simp at h
      next r rrest heq2 =>
        split at h
        next e heq3 =>
          simp at h
        next prs heq3 =>
          split at h
          next hprs =>
            simp at h
          next hprs =>
            have hrs : rs = assembleRoutes prs := by
              injection h with hcode hbody
              injection hbody with hbody
              exact hbody.symm
            subst hrs
            refine ⟨?_, ?_, ?_⟩
            · simpa [assembleRoutes] using hprs
            · intro sr hsr
              obtain ⟨pr, hpr, rfl⟩ := assemble_scores prs sr hsr
              exact finalScore_bounds _ _ _
            · intro hlen sr hsr
              have hl1 : prs.length = 1 := by
                simpa [assembleRoutes] using hlen
              obtain ⟨pr, rfl⟩ := List.length_eq_one.mp hl1
              obtain ⟨pr2, hpr2, rfl⟩ := assemble_scores [pr] sr hsr
              have hpr2e : pr2 = pr := by simpa using hpr2
              subst hpr2e
              exact finalScore_const _ _ _ (by simp [listMin, listMax])

/-- Witness for C2: a valid request with one provider route yields a
single route whose risk score is exactly 0.05 and within bounds. -/
theorem risk_score_bounds_inst :
    ([srStd] : List ScoredRoute) ≠ [] ∧
    ((0.05 : ℚ) ≤ srStd.risk_score ∧ srStd.risk_score ≤ 1) ∧
    srStd.risk_score = 0.05 := by
  have h := risk_score_bounds distFar true argsOk dataOkOne [srStd] (by with_unfolding_all rfl)
  exact ⟨h.1, h.2.1 srStd (by simp), h.2.2 rfl srStd (by simp)⟩
